import Mathlib

/-!
Shallow embedding of the Flask backend (shooting-equipment tracker) in Lean 4.

The repository is a CRUD REST service: user accounts with password / OTP /
reset-token authentication (`app/services/auth_service.py`,
`app/models/user.py`, `app/utils/validators.py`), and loadout / ballistic
blueprints (`app/views/loadout.py`, `app/views/ballistic.py`,
`app/viewmodels/ballistic_viewmodel.py`, `app/models/ballistic.py`).

Modelling conventions:
* The SQL store is a `DB` value (a list of users and a list of password-reset
  tokens); SQLAlchemy queries become list operations (`filter_by(...).first()`
  is `List.find?`), and committing a mutation returns a new `DB`.
* Time is a `Nat` measured in minutes (the code uses `datetime.utcnow()`;
  `timedelta(minutes=10)` is `+ 10`, `timedelta(hours=1)` is `+ 60`).
* Calls into external libraries are parameters of the model: `validE` stands
  for `email_validator.validate_email`, `hash` for
  `werkzeug.generate_password_hash`, `chk` for `check_password_hash`,
  `gts` for `flask_jwt_extended` token minting, and fresh random values
  (`uuid4`, `secrets` OTPs and tokens) are explicit arguments.
-/

namespace FlaskBackend

/-- `users` table row (`app/models/user.py`, class `User`).  Only the columns
the verified properties touch are modelled; `password_hash` is nullable
(Google OAuth users have none). -/
structure User where
  id : String
  full_name : String
  email : String
  password_hash : Option String
  is_active : Bool
  sign_in_method : String
  email_verified : Bool
deriving Repr, DecidableEq

/-- `password_reset_tokens` table row (`app/models/user.py`,
class `PasswordResetToken`). -/
structure PasswordResetToken where
  user_id : String
  token : String
  expires_at : Nat
  used : Bool
deriving Repr, DecidableEq

/-- The relational store: the two tables the authentication flow touches. -/
structure DB where
  users : List User
  tokens : List PasswordResetToken
deriving Repr, DecidableEq

/-! ## Python string primitives

The Python methods the code calls (`str.strip`, `str.lower`, slicing) are
modelled structurally over the character list of the string, so that every
model function evaluates by kernel reduction on concrete inputs. -/

/-- Python `str.strip()`: drop leading and trailing whitespace. -/
def pyStrip (s : String) : String :=
  String.mk (((s.data.dropWhile Char.isWhitespace).reverse.dropWhile
    Char.isWhitespace).reverse)

/-- Python `str.lower()`. -/
def pyLower (s : String) : String := String.mk (s.data.map Char.toLower)

/-- The email normalisation `email.lower().strip()` used by
`User.__init__` and `User.find_by_email`. -/
def normalizeEmail (email : String) : String := pyStrip (pyLower email)

/-! ## Validators (`app/utils/validators.py`) -/

/-- `Validators.validate_full_name`: requires a stripped length between 2
and 255. -/
def Validators.validate_full_name (full_name : String) : Bool × Option String :=
  if (pyStrip full_name).data.isEmpty then (false, some "Full name is required")
  else if (pyStrip full_name).length < 2 then
    (false, some "Full name must be at least 2 characters long")
  else if (pyStrip full_name).length > 255 then
    (false, some "Full name must be less than 255 characters")
  else (true, none)

/-- The special characters accepted by `Validators.validate_password`
(the Python character class includes a double quote, `:` and braces;
`Char.ofNat 34` is the double quote, 123 and 125 are the braces). -/
def passwordSpecialChars : List Char :=
  ['!', '@', '#', '$', '%', '^', '&', '*', '(', ')', ',', '.', '?',
   Char.ofNat 34, ':', Char.ofNat 123, Char.ofNat 125, '|', '<', '>']

/-- `Validators.validate_password`: nonempty, at least 8 characters, an
uppercase letter, a digit and a special character. -/
def Validators.validate_password (password : String) : Bool × Option String :=
  if password.data.isEmpty then (false, some "Password is required")
  else if password.length < 8 then
    (false, some "Password must be at least 8 characters long")
  else if !(password.data.any Char.isUpper) then
    (false, some "Password must contain at least one uppercase letter")
  else if !(password.data.any Char.isDigit) then
    (false, some "Password must contain at least one number")
  else if !(password.data.any (fun c => passwordSpecialChars.contains c)) then
    (false, some "Password must contain at least one special character")
  else (true, none)

/-- `Validators.validate_otp`: nonempty, digits only, exactly 4 of them. -/
def Validators.validate_otp (otp : String) : Bool × Option String :=
  if otp.data.isEmpty then (false, some "OTP is required")
  else if !(otp.data.all Char.isDigit) then
    (false, some "OTP must contain only numbers")
  else if otp.length ≠ 4 then (false, some "OTP must be 4 digits")
  else (true, none)

/-- The characters `Validators.sanitize_string` strips out
(`re.sub(r'[<>"\x27]', '', ...)`): angle brackets, double quote
(`Char.ofNat 34`) and apostrophe (`Char.ofNat 39`). -/
def harmfulChars : List Char := ['<', '>', Char.ofNat 34, Char.ofNat 39]

/-- `Validators.sanitize_string`: strip surrounding whitespace, truncate to
`max_length`, then delete every harmful character.  The only caller passes
the default `max_length = 255`. -/
def Validators.sanitize_string (text : String) (max_length : Nat) : String :=
  String.mk (((pyStrip text).data.take max_length).filter
    (fun c => !(harmfulChars.contains c)))

/-! ## User model operations (`app/models/user.py`) -/

/-- `User.find_by_email`: `filter_by(email=email.lower().strip()).first()`. -/
def User.find_by_email (db : DB) (email : String) : Option User :=
  db.users.find? (fun u => u.email = normalizeEmail email)

/-- `User.check_password`: `False` when `password_hash` is null or empty
(Python falsiness), else `check_password_hash` (the parameter `chk`). -/
def User.check_password (chk : String → String → Bool) (u : User)
    (password : String) : Bool :=
  match u.password_hash with
  | none => false
  | some h => if h.data.isEmpty then false else chk h password

/-- `PasswordResetToken.is_valid`: not used and not expired (strictly later
than now). -/
def PasswordResetToken.is_valid (t : PasswordResetToken) (now : Nat) : Bool :=
  !t.used && decide (now < t.expires_at)

/-- `PasswordResetToken.find_valid_token`: look the token value up by the
(unique) `token` column, then keep it only when `is_valid`. -/
def PasswordResetToken.find_valid_token (db : DB) (now : Nat) (token : String) :
    Option PasswordResetToken :=
  match db.tokens.find? (fun r => r.token = token) with
  | some r => if r.is_valid now then some r else none
  | none => none

/-- `PasswordResetToken.mark_as_used` on the row returned by a
`filter_by(...).first()` query: flip `used` on the first row of the table
satisfying the query predicate. -/
def markFirstUsed (ts : List PasswordResetToken)
    (p : PasswordResetToken → Bool) : List PasswordResetToken :=
  match ts with
  | [] => []
  | t :: rest =>
    if p t then { t with used := true } :: rest else t :: markFirstUsed rest p

/-- The row filter used by `verify_otp` and `reset_password`:
`filter_by(user_id=..., token=..., used=False).filter(expires_at > utcnow())`. -/
def tokenQueryPred (userId tok : String) (now : Nat)
    (r : PasswordResetToken) : Bool :=
  r.user_id = userId && r.token = tok && r.used = false && decide (now < r.expires_at)

/-- `AuthService._cleanup_expired_tokens`: delete this user's rows with
`expires_at < utcnow()`. -/
def cleanup_expired_tokens (db : DB) (userId : String) (now : Nat) : DB :=
  { db with tokens :=
      db.tokens.filter (fun r => !(r.user_id = userId && decide (r.expires_at < now))) }

/-! ## Auth service (`app/services/auth_service.py`) -/

/-- JWT token pair minted by `JWTUtils.generate_tokens`
(`app/utils/jwt_utils.py`); the minting itself is a library call, modelled
by the parameter `gts : String → Tokens`. -/
structure Tokens where
  access_token : String
  refresh_token : String
deriving Repr, DecidableEq

/-- Result of `AuthService.register_user` / `login_user`: the Python
`(success, message, user, tokens)` quadruple plus the store after the call. -/
structure AuthResult where
  success : Bool
  message : String
  user : Option User
  tokens : Option Tokens
  db : DB
deriving Repr, DecidableEq

/-- The user row `register_user` inserts, built exactly as `User.__init__`
does for `sign_in_method='email'`: sanitised name, lower-cased stripped
email, hash of the (truthy) password, active, unverified email. -/
def newEmailUser (hash : String → String)
    (newId full_name email password : String) : User :=
  { id := newId
    full_name := Validators.sanitize_string full_name 255
    email := normalizeEmail email
    password_hash := if password.data.isEmpty then none else some (hash password)
    is_active := true
    sign_in_method := "email"
    email_verified := false }

/-- `AuthService.register_user`: validate name, email and password in that
order, refuse an already-registered (normalised) email, otherwise insert the
one new user and return fresh tokens.  `newId` stands for `uuid4`. -/
def AuthService.register_user (validE : String → Bool) (hash : String → String)
    (gts : String → Tokens) (newId : String) (db : DB)
    (full_name email password : String) : AuthResult :=
  let nameCheck := Validators.validate_full_name full_name
  if !nameCheck.1 then ⟨false, nameCheck.2.getD "", none, none, db⟩
  else if !(validE email) then ⟨false, "Invalid email format", none, none, db⟩
  else
    let pwCheck := Validators.validate_password password
    if !pwCheck.1 then ⟨false, pwCheck.2.getD "", none, none, db⟩
    else match User.find_by_email db email with
    | some _ => ⟨false, "Email is already registered", none, none, db⟩
    | none =>
      let user : User := newEmailUser hash newId full_name email password
      ⟨true, "User registered successfully", some user, some (gts user.id),
        { db with users := db.users ++ [user] }⟩

/-- `AuthService.login_user`: validate the email, require a nonempty
password, look the user up, require an active account, then
`check_password`. -/
def AuthService.login_user (validE : String → Bool)
    (chk : String → String → Bool) (gts : String → Tokens) (db : DB)
    (email password : String) : AuthResult :=
  if !(validE email) then ⟨false, "Invalid email format", none, none, db⟩
  else if password.data.isEmpty then ⟨false, "Password is required", none, none, db⟩
  else match User.find_by_email db email with
  | none => ⟨false, "No user found with this email", none, none, db⟩
  | some user =>
    if !user.is_active then
      ⟨false, "User account has been disabled", none, none, db⟩
    else if !(User.check_password chk user password) then
      ⟨false, "Incorrect password", none, none, db⟩
    else ⟨true, "Login successful", some user, some (gts user.id), db⟩

/-- Result of `AuthService.forgot_password`: `(success, message)`, the store
after the call, and the reset emails handed to `EmailService`
(recipient, OTP). -/
structure ForgotResult where
  success : Bool
  message : String
  sent : List (String × String)
  db : DB
deriving Repr, DecidableEq

/-- `AuthService.forgot_password`: validate the email; answer the fixed
non-revealing message when no user matches; refuse a disabled account;
otherwise clean this user's expired rows, store a 10-minute OTP row and
send it (`sendOk` is the `EmailService.send_password_reset_otp` outcome,
`otp` the value `_generate_otp` drew). -/
def AuthService.forgot_password (validE : String → Bool) (sendOk : Bool)
    (otp : String) (db : DB) (now : Nat) (email : String) : ForgotResult :=
  if !(validE email) then ⟨false, "Invalid email format", [], db⟩
  else match User.find_by_email db email with
  | none =>
    ⟨true, "If an account with this email exists, you will receive a password reset link",
      [], db⟩
  | some user =>
    if !user.is_active then ⟨false, "User account has been disabled", [], db⟩
    else
      let db1 := cleanup_expired_tokens db user.id now
      let db2 : DB :=
        { db1 with tokens := db1.tokens ++ [⟨user.id, otp, now + 10, false⟩] }
      if !sendOk then ⟨false, "Failed to send reset email", [(email, otp)], db2⟩
      else ⟨true, "Password reset code sent to your email", [(email, otp)], db2⟩

/-- Result of `AuthService.verify_otp`: `(success, message, reset_token)`
plus the store after the call. -/
structure VerifyOtpResult where
  success : Bool
  message : String
  reset_token : Option String
  db : DB
deriving Repr, DecidableEq

/-- `AuthService.verify_otp`: validate email and OTP format, look the user
up, find an unused unexpired row holding this OTP, mark it used and store a
fresh one-hour reset token (`fresh` stands for `_generate_reset_token`). -/
def AuthService.verify_otp (validE : String → Bool) (db : DB) (now : Nat)
    (fresh email otp : String) : VerifyOtpResult :=
  if !(validE email) then ⟨false, "Invalid email format", none, db⟩
  else
    let otpCheck := Validators.validate_otp otp
    if !otpCheck.1 then ⟨false, otpCheck.2.getD "", none, db⟩
    else match User.find_by_email db email with
    | none => ⟨false, "User not found", none, db⟩
    | some user =>
      match db.tokens.find? (tokenQueryPred user.id otp now) with
      | none => ⟨false, "Invalid or expired OTP", none, db⟩
      | some _ =>
        let db1 : DB :=
          { db with tokens := markFirstUsed db.tokens (tokenQueryPred user.id otp now) }
        let db2 : DB :=
          { db1 with tokens := db1.tokens ++ [⟨user.id, fresh, now + 60, false⟩] }
        ⟨true, "OTP verified successfully", some fresh, db2⟩

/-- Result of `AuthService.reset_password`: `(success, message)` plus the
store after the call. -/
structure ResetResult where
  success : Bool
  message : String
  db : DB
deriving Repr, DecidableEq

/-- `User.set_password` applied through `user.save()`: rewrite the user's
row with the new hash (`set_password` only acts on a truthy password). -/
def setUserPassword (users : List User) (userId : String)
    (hash : String → String) (password : String) : List User :=
  users.map (fun u =>
    if u.id = userId then
      if password.data.isEmpty then u else { u with password_hash := some (hash password) }
    else u)

/-- `AuthService.reset_password`: validate email and new password, look the
user up, find an unused unexpired row holding this reset token, update the
password, mark the row used, then clean this user's expired rows. -/
def AuthService.reset_password (validE : String → Bool)
    (hash : String → String) (db : DB) (now : Nat)
    (email reset_token new_password : String) : ResetResult :=
  if !(validE email) then ⟨false, "Invalid email format", db⟩
  else
    let pwCheck := Validators.validate_password new_password
    if !pwCheck.1 then ⟨false, pwCheck.2.getD "", db⟩
    else match User.find_by_email db email with
    | none => ⟨false, "User not found", db⟩
    | some user =>
      match db.tokens.find? (tokenQueryPred user.id reset_token now) with
      | none => ⟨false, "Invalid or expired reset token", db⟩
      | some _ =>
        let db1 : DB :=
          { db with users := setUserPassword db.users user.id hash new_password }
        let db2 : DB :=
          { db1 with tokens := markFirstUsed db1.tokens (tokenQueryPred user.id reset_token now) }
        let db3 := cleanup_expired_tokens db2 user.id now
        ⟨true, "Password reset successfully", db3⟩

/-! ## Ballistic calculation endpoint
(`app/viewmodels/ballistic_viewmodel.py`, `app/models/ballistic.py`) -/

/-- A parsed JSON request body: `d field` is `request_data.get(field)`,
`none` meaning the key is absent or holds JSON null.  `Val` is the type of
non-null JSON values (numbers, strings, arrays, objects); nothing in the
verified properties depends on its shape. -/
def RequestData (Val : Type) := String → Option Val

/-- The `required_fields` list of
`BallisticViewModel.handle_calculate_ballistics`, in source order. -/
def required_calc_fields : List String :=
  ["rifleId", "ammunitionId", "ballisticCoefficient", "muzzleVelocity",
   "targetDistance"]

/-- `ballistic_calculations` table row (`app/models/ballistic.py`, class
`BallisticCalculation`).  `__init__` assigns every argument to its column
unchanged, `trajectory_data` included. -/
structure BallisticCalculation (Val : Type) where
  user_id : String
  rifle_id : Option Val
  ammunition_id : Option Val
  ballistic_coefficient : Option Val
  muzzle_velocity : Option Val
  target_distance : Option Val
  wind_speed : Option Val
  wind_direction : Option Val
  trajectory_data : Option Val

/-- Modelled from the spec: `BallisticService.calculate_ballistics` lives in
`app/services/ballistic_service.py`, which the viewmodel imports but which
is not under src/ (only its callers and the row model are).  The spec states
the calculation endpoint "persists a trajectory payload supplied by the
caller rather than deriving it from physics", so the service copies the
request's fields — the trajectory payload among them — into the
`BallisticCalculation` row built by the `__init__` of
`app/models/ballistic.py`, with no computation. -/
def calculate_ballistics {Val : Type} (user_id : String) (d : RequestData Val) :
    BallisticCalculation Val :=
  { user_id := user_id
    rifle_id := d "rifleId"
    ammunition_id := d "ammunitionId"
    ballistic_coefficient := d "ballisticCoefficient"
    muzzle_velocity := d "muzzleVelocity"
    target_distance := d "targetDistance"
    wind_speed := d "windSpeed"
    wind_direction := d "windDirection"
    trajectory_data := d "trajectoryData" }

/-- Observable outcome of `handle_calculate_ballistics`: either an
`ApiResponse.validation_error` (HTTP status 422 by default, see
`app/utils/responses.py`) returned before the service is reached, or the
invocation of the persistence service. -/
inductive CalcOutcome (Val : Type)
  | validationError (message : String) (status : Nat)
  | serviceCalled (row : BallisticCalculation Val)

/-- `BallisticViewModel.handle_calculate_ballistics`: scan
`required_fields` in order, reject with a 422 naming the first field whose
`request_data.get` is `None`, otherwise call the service. -/
def handle_calculate_ballistics {Val : Type} (d : RequestData Val)
    (user_id : String) : CalcOutcome Val :=
  match required_calc_fields.find? (fun f => (d f).isNone) with
  | some f =>
    CalcOutcome.validationError (f ++ " is required for ballistic calculation") 422
  | none => CalcOutcome.serviceCalled (calculate_ballistics user_id d)

/-! ## Route tables (`app/views/ballistic.py`, `app/views/loadout.py`)

Each record transcribes one Flask route of the blueprint: whether the
handler carries the `@jwt_required()` decorator, whether its body obtains
`user_id = get_jwt_identity()` and passes it to the viewmodel call, and
whether that call reads or mutates stored data (every handler except the
static health checks dispatches into a viewmodel backed by the store). -/

structure Route where
  handler : String
  path : String
  httpMethod : String
  jwt_required : Bool
  uses_jwt_identity : Bool
  accesses_store : Bool
deriving Repr, DecidableEq

/-- The routes of the ballistic blueprint, in source order. -/
def ballistic_routes : List Route :=
  [⟨"get_dope_entries", "/dope", "GET", true, true, true⟩,
   ⟨"create_dope_entry", "/dope", "POST", true, true, true⟩,
   ⟨"delete_dope_entry", "/dope/<entry_id>", "DELETE", true, true, true⟩,
   ⟨"get_zero_entries", "/zero", "GET", true, true, true⟩,
   ⟨"create_zero_entry", "/zero", "POST", true, true, true⟩,
   ⟨"delete_zero_entry", "/zero/<entry_id>", "DELETE", true, true, true⟩,
   ⟨"get_chronograph_data", "/chronograph", "GET", true, true, true⟩,
   ⟨"create_chronograph_data", "/chronograph", "POST", true, true, true⟩,
   ⟨"delete_chronograph_data", "/chronograph/<data_id>", "DELETE", true, true, true⟩,
   ⟨"get_ballistic_calculations", "/calculations", "GET", true, true, true⟩,
   ⟨"calculate_ballistics", "/calculations", "POST", true, true, true⟩,
   ⟨"delete_ballistic_calculation", "/calculations/<calculation_id>", "DELETE", true, true, true⟩,
   ⟨"get_ballistic_summary", "/summary", "GET", true, true, true⟩,
   ⟨"get_all_ballistic_data", "/all-data", "GET", true, true, true⟩,
   ⟨"ballistic_health", "/health", "GET", false, false, false⟩]

/-- The routes of the loadout blueprint, in source order. -/
def loadout_routes : List Route :=
  [⟨"get_rifles", "/rifles", "GET", true, true, true⟩,
   ⟨"create_rifle", "/rifles", "POST", true, true, true⟩,
   ⟨"get_rifle", "/rifles/<rifle_id>", "GET", true, true, true⟩,
   ⟨"update_rifle", "/rifles/<rifle_id>", "PUT", true, true, true⟩,
   ⟨"delete_rifle", "/rifles/<rifle_id>", "DELETE", true, true, true⟩,
   ⟨"set_active_rifle", "/rifles/set-active", "POST", true, true, true⟩,
   ⟨"update_rifle_scope", "/rifles/<rifle_id>/scope", "PUT", true, true, true⟩,
   ⟨"update_rifle_ammunition", "/rifles/<rifle_id>/ammunition", "PUT", true, true, true⟩,
   ⟨"get_ammunition", "/ammunition", "GET", true, true, true⟩,
   ⟨"create_ammunition", "/ammunition", "POST", true, true, true⟩,
   ⟨"update_ammunition", "/ammunition/<ammo_id>", "PUT", true, true, true⟩,
   ⟨"delete_ammunition", "/ammunition/<ammo_id>", "DELETE", true, true, true⟩,
   ⟨"get_scopes", "/scopes", "GET", true, true, true⟩,
   ⟨"create_scope", "/scopes", "POST", true, true, true⟩,
   ⟨"update_scope", "/scopes/<scope_id>", "PUT", true, true, true⟩,
   ⟨"delete_scope", "/scopes/<scope_id>", "DELETE", true, true, true⟩,
   ⟨"get_maintenance", "/maintenance", "GET", true, true, true⟩,
   ⟨"create_maintenance", "/maintenance", "POST", true, true, true⟩,
   ⟨"complete_maintenance", "/maintenance/<maintenance_id>/complete", "POST", true, true, true⟩,
   ⟨"delete_maintenance", "/maintenance/<maintenance_id>", "DELETE", true, true, true⟩,
   ⟨"get_loadout_summary", "/summary", "GET", true, true, true⟩,
   ⟨"loadout_health", "/health", "GET", false, false, false⟩]

/-! ## Concrete sample data

A small store and sample library stand-ins, used by the closed witness and
counterexample statements.  `sampleValidE` is a toy stand-in for the external
`email_validator` library (any function of the right type works, since the
model treats the validator as a parameter). -/

/-- Sample email-format validator: accepts strings containing `@`. -/
def sampleValidE : String → Bool := fun e => e.data.contains '@'

/-- Sample password hasher (stand-in for `generate_password_hash`). -/
def sampleHash : String → String := fun p => String.mk ('#' :: p.data)

/-- Sample hash checker consistent with `sampleHash`. -/
def sampleChk : String → String → Bool := fun h p => h = sampleHash p

/-- Sample JWT minting function (stand-in for `JWTUtils.generate_tokens`). -/
def sampleGts : String → Tokens :=
  fun i => ⟨String.mk ('a' :: i.data), String.mk ('r' :: i.data)⟩

/-- A user with a password. -/
def alice : User := ⟨"u1", "Al Ice", "a@b.com", some "#Secret1!", true, "email", false⟩

/-- A passwordless (Google-style) active user. -/
def bob : User := ⟨"u2", "Bob Bobson", "b@b.com", none, true, "email", false⟩

/-- A store holding both users, an OTP row and a reset-token row for
`alice`, both unused and expiring at minutes 100 and 200. -/
def dbMain : DB :=
  ⟨[alice, bob], [⟨"u1", "1234", 100, false⟩, ⟨"u1", "resetTokA", 200, false⟩]⟩

/-! ## Helper lemmas -/

/-- Decompose a successful `first()` query: the table splits around the
first matching row, and `mark_as_used` rewrites exactly that row. -/
lemma markFirstUsed_of_find? {p : PasswordResetToken → Bool} :
    ∀ {ts : List PasswordResetToken} {r : PasswordResetToken}, ts.find? p = some r →
      ∃ pre post, ts = pre ++ r :: post ∧ (∀ x ∈ pre, p x = false) ∧
        markFirstUsed ts p = pre ++ { r with used := true } :: post := by
  intro ts
  induction ts with
  | nil => intro r h; simp [List.find?] at h
  | cons t rest ih =>
    intro r h
    by_cases hp : p t
    · rw [List.find?_cons_of_pos _ hp] at h
      cases h
      exact ⟨[], rest, by simp, by simp, by simp [markFirstUsed, hp]⟩
    · rw [List.find?_cons_of_neg _ hp] at h
      obtain ⟨pre, post, hsplit, hpre, hmark⟩ := ih h
      refine ⟨t :: pre, post, by simp [hsplit], ?_, ?_⟩
      · intro x hx
        rcases List.mem_cons.mp hx with rfl | hx
        · simpa using hp
        · exact hpre x hx
      · simp [markFirstUsed, hp, hmark]

/-- A token value all of whose rows are used can never satisfy the
`used=False` row filter of `verify_otp` / `reset_password`. -/
lemma find?_eq_none_of_consumed {uid t : String} {now : Nat}
    {ts : List PasswordResetToken}
    (h : ∀ x ∈ ts, x.token = t → x.used = true) :
    ts.find? (tokenQueryPred uid t now) = none := by
  rw [List.find?_eq_none]
  intro x hx hpx
  simp only [tokenQueryPred, Bool.and_eq_true, decide_eq_true_eq] at hpx
  obtain ⟨⟨⟨-, htok⟩, hused⟩, -⟩ := hpx
  have := h x hx htok
  rw [hused] at this
  exact Bool.false_ne_true this

/-- `find?` over a list mapped through an update that does not change the
tested field commutes with the update. -/
lemma find?_map_comm {α : Type} (f : α → α) (p : α → Bool)
    (hf : ∀ a, p (f a) = p a) :
    ∀ l : List α, (l.map f).find? p = (l.find? p).map f := by
  intro l
  induction l with
  | nil => simp
  | cons a l ih =>
    by_cases h : p a = true
    · rw [List.map_cons, List.find?_cons_of_pos _ h,
        List.find?_cons_of_pos _ (by rw [hf]; exact h)]
      simp
    · rw [List.map_cons, List.find?_cons_of_neg _ h,
        List.find?_cons_of_neg _ (by rw [hf]; exact h), ih]

/-- `verify_otp` succeeds exactly when the email validates, the OTP has the
right format, the user exists and an unused unexpired row holds this OTP. -/
lemma verify_otp_success_iff (validE : String → Bool) (db : DB) (now : Nat)
    (fresh email otp : String) :
    (AuthService.verify_otp validE db now fresh email otp).success = true ↔
      validE email = true ∧ (Validators.validate_otp otp).1 = true ∧
      ∃ u, User.find_by_email db email = some u ∧
        ∃ row ∈ db.tokens, tokenQueryPred u.id otp now row = true := by
  unfold AuthService.verify_otp
  by_cases h1 : validE email = true
  case neg => simp [h1]
  by_cases h2 : (Validators.validate_otp otp).1 = true
  case neg => simp [h1, h2]
  cases h3 : User.find_by_email db email with
  | none => simp [h1, h2, h3]
  | some u =>
    cases h4 : db.tokens.find? (tokenQueryPred u.id otp now) with
    | none =>
      rw [List.find?_eq_none] at h4
      simp only [h1, h2, h3, Bool.not_true, if_neg, if_pos]
      simp [List.find?_eq_none.mpr h4]
      intro x hx
      exact Bool.eq_false_iff.mpr (h4 x hx)
    | some r =>
      have hr := List.find?_some h4
      have hmem := List.mem_of_find?_eq_some h4
      simp [h1, h2, h3, h4]
      exact ⟨r, hmem, hr⟩

/-- Shape of a successful `verify_otp`: the result message, the returned
fresh token, and the store (users untouched, OTP row marked used, fresh
one-hour row appended). -/
lemma verify_otp_success_eq (validE : String → Bool) (db : DB) (now : Nat)
    (fresh email otp : String) (u : User) (r : PasswordResetToken)
    (h1 : validE email = true)
    (h2 : (Validators.validate_otp otp).1 = true)
    (h3 : User.find_by_email db email = some u)
    (h4 : db.tokens.find? (tokenQueryPred u.id otp now) = some r) :
    AuthService.verify_otp validE db now fresh email otp =
      ⟨true, "OTP verified successfully", some fresh,
        ⟨db.users, markFirstUsed db.tokens (tokenQueryPred u.id otp now) ++
          [⟨u.id, fresh, now + 60, false⟩]⟩⟩ := by
  unfold AuthService.verify_otp
  simp [h1, h2, h3, h4]

/-- A failed `verify_otp` returns no token and leaves the store unchanged. -/
lemma verify_otp_failure_eq (validE : String → Bool) (db : DB) (now : Nat)
    (fresh email otp : String)
    (h : (AuthService.verify_otp validE db now fresh email otp).success = false) :
    (AuthService.verify_otp validE db now fresh email otp).reset_token = none ∧
    (AuthService.verify_otp validE db now fresh email otp).db = db := by
  unfold AuthService.verify_otp at *
  by_cases h1 : validE email = true
  case neg => simp [h1]
  by_cases h2 : (Validators.validate_otp otp).1 = true
  case neg => simp [h1, h2]
  cases h3 : User.find_by_email db email with
  | none => simp [h1, h2, h3]
  | some u =>
    cases h4 : db.tokens.find? (tokenQueryPred u.id otp now) with
    | none => simp [h1, h2, h3, h4]
    | some r => simp [h1, h2, h3, h4] at h

/-- When every row holding token `t` is already used, `verify_otp` fails,
changes nothing, returns no token, and — whenever `t` passes the OTP format
check — reports "Invalid or expired OTP". -/
lemma verify_otp_reject (validE : String → Bool) (db : DB) (now : Nat)
    (fresh email t : String) (u : User)
    (hv : validE email = true)
    (hu : User.find_by_email db email = some u)
    (hc : ∀ x ∈ db.tokens, x.token = t → x.used = true) :
    (AuthService.verify_otp validE db now fresh email t).success = false ∧
    (AuthService.verify_otp validE db now fresh email t).db = db ∧
    (AuthService.verify_otp validE db now fresh email t).reset_token = none ∧
    ((Validators.validate_otp t).1 = true →
      (AuthService.verify_otp validE db now fresh email t).message =
        "Invalid or expired OTP") := by
  have hnone := @find?_eq_none_of_consumed u.id t now db.tokens hc
  unfold AuthService.verify_otp
  by_cases h2 : (Validators.validate_otp t).1 = true
  · simp [hv, h2, hu, hnone]
  · simp [hv, h2]

/-- `reset_password` succeeds exactly when the email validates, the new
password validates, the user exists and an unused unexpired row holds this
reset token. -/
lemma reset_password_success_iff (validE : String → Bool)
    (hash : String → String) (db : DB) (now : Nat) (email t pw : String) :
    (AuthService.reset_password validE hash db now email t pw).success = true ↔
      validE email = true ∧ (Validators.validate_password pw).1 = true ∧
      ∃ u, User.find_by_email db email = some u ∧
        ∃ row ∈ db.tokens, tokenQueryPred u.id t now row = true := by
  unfold AuthService.reset_password
  by_cases h1 : validE email = true
  case neg => simp [h1]
  by_cases h2 : (Validators.validate_password pw).1 = true
  case neg => simp [h1, h2]
  cases h3 : User.find_by_email db email with
  | none => simp [h1, h2, h3]
  | some u =>
    cases h4 : db.tokens.find? (tokenQueryPred u.id t now) with
    | none =>
      rw [List.find?_eq_none] at h4
      simp [h1, h2, h3, List.find?_eq_none.mpr h4]
      intro x hx
      exact Bool.eq_false_iff.mpr (h4 x hx)
    | some r =>
      have hr := List.find?_some h4
      have hmem := List.mem_of_find?_eq_some h4
      simp [h1, h2, h3, h4]
      exact ⟨r, hmem, hr⟩

/-- Shape of a successful `reset_password`: password rewritten, matched row
marked used, this user's expired rows cleaned. -/
lemma reset_password_success_eq (validE : String → Bool)
    (hash : String → String) (db : DB) (now : Nat) (email t pw : String)
    (u : User) (r : PasswordResetToken)
    (h1 : validE email = true)
    (h2 : (Validators.validate_password pw).1 = true)
    (h3 : User.find_by_email db email = some u)
    (h4 : db.tokens.find? (tokenQueryPred u.id t now) = some r) :
    AuthService.reset_password validE hash db now email t pw =
      ⟨true, "Password reset successfully",
        cleanup_expired_tokens
          ⟨setUserPassword db.users u.id hash pw,
           markFirstUsed db.tokens (tokenQueryPred u.id t now)⟩ u.id now⟩ := by
  unfold AuthService.reset_password
  simp [h1, h2, h3, h4]

/-- When every row holding token `t` is already used, `reset_password`
fails, changes nothing, and — whenever the new password validates —
reports "Invalid or expired reset token". -/
lemma reset_password_reject (validE : String → Bool) (hash : String → String)
    (db : DB) (now : Nat) (email t pw : String) (u : User)
    (hv : validE email = true)
    (hu : User.find_by_email db email = some u)
    (hc : ∀ x ∈ db.tokens, x.token = t → x.used = true) :
    (AuthService.reset_password validE hash db now email t pw).success = false ∧
    (AuthService.reset_password validE hash db now email t pw).db = db ∧
    ((Validators.validate_password pw).1 = true →
      (AuthService.reset_password validE hash db now email t pw).message =
        "Invalid or expired reset token") := by
  have hnone := @find?_eq_none_of_consumed u.id t now db.tokens hc
  unfold AuthService.reset_password
  by_cases h2 : (Validators.validate_password pw).1 = true
  · simp [hv, h2, hu, hnone]
  · simp [hv, h2]

/-- After `mark_as_used` on the first row matching the `verify_otp` /
`reset_password` filter, a token value that the `token` column's unique
constraint lets appear in at most one row has no unused row left. -/
lemma consumed_markFirstUsed {uid t : String} {now : Nat}
    {ts : List PasswordResetToken} {r : PasswordResetToken}
    (hcount : ts.countP (fun x => x.token = t) ≤ 1)
    (hfind : ts.find? (tokenQueryPred uid t now) = some r) :
    ∀ x ∈ markFirstUsed ts (tokenQueryPred uid t now), x.token = t → x.used = true := by
  obtain ⟨pre, post, hsplit, hpre, hmark⟩ := markFirstUsed_of_find? hfind
  have hrt : r.token = t := by
    have := List.find?_some hfind
    simp only [tokenQueryPred, Bool.and_eq_true, decide_eq_true_eq] at this
    exact this.1.1.2
  have hz : pre.countP (fun x => x.token = t) = 0 ∧
      post.countP (fun x => x.token = t) = 0 := by
    rw [hsplit, List.countP_append, List.countP_cons] at hcount
    simp [hrt] at hcount
    omega
  have hzpre := List.countP_eq_zero.mp hz.1
  have hzpost := List.countP_eq_zero.mp hz.2
  rw [hmark]
  intro x hx htok
  rcases List.mem_append.mp hx with hx | hx
  · exact absurd (by simpa using htok) (hzpre x hx)
  · rcases List.mem_cons.mp hx with rfl | hx
    · rfl
    · exact absurd (by simpa using htok) (hzpost x hx)

/-- Appending a fresh row with a different token value preserves
consumedness of `t`. -/
lemma consumed_append_fresh {t fresh uid : String} {e : Nat}
    {l : List PasswordResetToken}
    (h : ∀ x ∈ l, x.token = t → x.used = true) (hf : fresh ≠ t) :
    ∀ x ∈ l ++ [⟨uid, fresh, e, false⟩], x.token = t → x.used = true := by
  intro x hx htok
  rcases List.mem_append.mp hx with hx | hx
  · exact h x hx htok
  · simp only [List.mem_singleton] at hx
    subst hx
    exact absurd htok hf

/-- Deleting rows (the expired-token cleanup) preserves consumedness. -/
lemma consumed_filter {t : String} {l : List PasswordResetToken}
    {q : PasswordResetToken → Bool}
    (h : ∀ x ∈ l, x.token = t → x.used = true) :
    ∀ x ∈ l.filter q, x.token = t → x.used = true :=
  fun x hx => h x (List.mem_of_mem_filter hx)

/-- Rewriting one user's password hash does not change which user an email
lookup returns (up to the updated hash), and keeps the id. -/
lemma find_by_email_set_password (users : List User)
    (ts ts2 : List PasswordResetToken) (uid : String) (hash : String → String)
    (pw email : String) (u : User)
    (h : User.find_by_email ⟨users, ts⟩ email = some u) :
    ∃ v, User.find_by_email ⟨setUserPassword users uid hash pw, ts2⟩ email = some v ∧
      v.id = u.id := by
  unfold User.find_by_email at h ⊢
  unfold setUserPassword
  rw [find?_map_comm]
  · simp only at h
    rw [h]
    refine ⟨_, rfl, ?_⟩
    by_cases h1 : u.id = uid <;> by_cases h2 : pw.data.isEmpty <;> simp [h1, h2]
  · intro a
    by_cases h1 : a.id = uid <;> by_cases h2 : pw.data.isEmpty <;> simp [h1, h2]

/-- With the unique `token` column, a member row holding token `t` is the
row a `filter_by(token=t).first()` query returns. -/
lemma find?_token_unique {ts : List PasswordResetToken} {t : String}
    {r : PasswordResetToken}
    (hcount : ts.countP (fun x => x.token = t) ≤ 1)
    (hmem : r ∈ ts) (htok : r.token = t) :
    ts.find? (fun x => x.token = t) = some r := by
  cases hf : ts.find? (fun x => x.token = t) with
  | none =>
    rw [List.find?_eq_none] at hf
    exact absurd (by simpa using htok) (hf r hmem)
  | some r0 =>
    rcases List.find?_eq_some.mp hf with ⟨hp0, pre, post, hsplit, hpre⟩
    have ht0 : r0.token = t := by simpa using hp0
    subst hsplit
    rcases List.mem_append.mp hmem with hx | hx
    · exact absurd (by simpa using htok) (by simpa using hpre r hx)
    · rcases List.mem_cons.mp hx with rfl | hx
      · rfl
      · exfalso
        have hpos : 0 < post.countP (fun x => x.token = t) :=
          List.countP_pos_iff.mpr ⟨r, hx, by simpa using htok⟩
        rw [List.countP_append, List.countP_cons] at hcount
        simp [ht0] at hcount
        omega

/-- `find?` only depends on the predicate's values on the list. -/
lemma find?_congr_mem {α : Type} {p q : α → Bool} :
    ∀ {l : List α}, (∀ x ∈ l, p x = q x) → l.find? p = l.find? q := by
  intro l
  induction l with
  | nil => intro _; rfl
  | cons a l ih =>
    intro h
    by_cases hp : p a = true
    · rw [List.find?_cons_of_pos _ hp,
        List.find?_cons_of_pos _ ((h a (by simp)).symm.trans hp)]
    · rw [List.find?_cons_of_neg _ hp,
        List.find?_cons_of_neg _ (by rw [← h a (by simp)]; exact hp),
        ih (fun x hx => h x (by simp [hx]))]

/-- `User.find_by_email` only reads the `users` table. -/
lemma find_by_email_mk (us : List User) (ts : List PasswordResetToken)
    (e : String) :
    User.find_by_email ⟨us, ts⟩ e = us.find? (fun u => u.email = normalizeEmail e) :=
  rfl

/-- A password that passes `validate_password` is nonempty (so
`set_password` and `User.__init__` really store a hash for it). -/
lemma validate_password_nonempty {pw : String}
    (h : (Validators.validate_password pw).1 = true) : pw.data.isEmpty = false := by
  unfold Validators.validate_password at h
  by_cases he : pw.data.isEmpty = true
  · rw [if_pos he] at h; exact absurd h (by simp)
  · simpa using he

/-- Shape of a successful `register_user`: exactly one user appended. -/
lemma register_user_success_eq (validE : String → Bool)
    (hash : String → String) (gts : String → Tokens) (newId : String)
    (db : DB) (name email password : String)
    (h1 : (Validators.validate_full_name name).1 = true)
    (h2 : validE email = true)
    (h3 : (Validators.validate_password password).1 = true)
    (h4 : User.find_by_email db email = none) :
    AuthService.register_user validE hash gts newId db name email password =
      ⟨true, "User registered successfully",
        some (newEmailUser hash newId name email password),
        some (gts (newEmailUser hash newId name email password).id),
        ⟨db.users ++ [newEmailUser hash newId name email password], db.tokens⟩⟩ := by
  unfold AuthService.register_user
  simp [h1, h2, h3, h4]

/-! ## Claim theorems -/

/-- **C1** (spec-modelled service): for every request that passes the
calculation handler's validation, the persisted `BallisticCalculation`
row's `trajectory_data` equals the trajectory payload supplied by the
caller, unchanged; and the stored trajectory depends only on that payload —
two validated requests with the same trajectory payload store the same
trajectory, whatever their `ballisticCoefficient`, `muzzleVelocity`,
`targetDistance`, `windSpeed` or `windDirection`, so it is never derived
from them. -/
theorem C1_trajectory_persisted_verbatim {Val : Type} (d : RequestData Val)
    (uid : String) (row : BallisticCalculation Val)
    (h : handle_calculate_ballistics d uid = CalcOutcome.serviceCalled row) :
    row.trajectory_data = d "trajectoryData" ∧
    (∀ (d2 : RequestData Val) (uid2 : String) (row2 : BallisticCalculation Val),
      handle_calculate_ballistics d2 uid2 = CalcOutcome.serviceCalled row2 →
      d2 "trajectoryData" = d "trajectoryData" →
      row2.trajectory_data = row.trajectory_data) := by
  have key : ∀ (e : RequestData Val) (v : String) (r : BallisticCalculation Val),
      handle_calculate_ballistics e v = CalcOutcome.serviceCalled r →
      r.trajectory_data = e "trajectoryData" := by
    intro e v r he
    unfold handle_calculate_ballistics at he
    cases hf : required_calc_fields.find? (fun f => (e f).isNone) with
    | some f => rw [hf] at he; exact absurd he (by simp)
    | none =>
      rw [hf] at he
      have : calculate_ballistics v e = r := by
        injection he
      rw [← this]
      rfl
  refine ⟨key d uid row h, ?_⟩
  intro d2 uid2 row2 h2 htraj
  rw [key d2 uid2 row2 h2, htraj, key d uid row h]

/-- Witness for C1: a concrete validated request whose stored trajectory is
the supplied payload. -/
theorem C1_witness :
    handle_calculate_ballistics (fun _ => some 7) "u9" =
      CalcOutcome.serviceCalled (calculate_ballistics "u9" (fun _ => some (7 : Nat))) ∧
    (calculate_ballistics "u9" (fun _ => some (7 : Nat))).trajectory_data = some 7 :=
  ⟨rfl, (C1_trajectory_persisted_verbatim (fun _ => some (7 : Nat)) "u9" _ rfl).1⟩

/-- **C2**: every route of the loadout and ballistic blueprints that reads
or mutates stored data carries `@jwt_required()` and passes
`user_id = get_jwt_identity()` into the underlying operation (the only
ungated routes are the two static health checks, which touch no data). -/
theorem C2_jwt_gating :
    ((ballistic_routes ++ loadout_routes).all
      (fun r => !r.accesses_store || (r.jwt_required && r.uses_jwt_identity))) = true := by
  rfl

/-- **C5**: the calculation handler 422-rejects, naming the first of the
five required fields whose `request_data.get` is `None`, without invoking
the service; when all five are present it invokes the service; and the
check reads no field beyond the five. -/
theorem C5_calc_required_fields {Val : Type} (d : RequestData Val) (uid : String) :
    ((∃ f ∈ required_calc_fields, d f = none) →
      ∃ f, required_calc_fields.find? (fun g => (d g).isNone) = some f ∧
        handle_calculate_ballistics d uid =
          CalcOutcome.validationError
            (f ++ " is required for ballistic calculation") 422) ∧
    ((∀ f ∈ required_calc_fields, (d f).isSome) →
      handle_calculate_ballistics d uid =
        CalcOutcome.serviceCalled (calculate_ballistics uid d)) ∧
    (∀ d2 : RequestData Val, (∀ f ∈ required_calc_fields, d2 f = d f) →
      required_calc_fields.find? (fun g => (d2 g).isNone) =
        required_calc_fields.find? (fun g => (d g).isNone)) := by
  refine ⟨?_, ?_, ?_⟩
  · rintro ⟨f, hf, hdf⟩
    have hsome : (required_calc_fields.find? (fun g => (d g).isNone)).isSome :=
      List.find?_isSome.mpr ⟨f, hf, by simp [hdf]⟩
    obtain ⟨f0, hf0⟩ := Option.isSome_iff_exists.mp hsome
    refine ⟨f0, hf0, ?_⟩
    unfold handle_calculate_ballistics
    rw [hf0]
  · intro hall
    unfold handle_calculate_ballistics
    have : required_calc_fields.find? (fun g => (d g).isNone) = none := by
      rw [List.find?_eq_none]
      intro f hf
      simp [Option.isNone_iff_eq_none]
      exact Option.isSome_iff_ne_none.mp (hall f hf)
    rw [this]
  · intro d2 h
    exact find?_congr_mem (fun f hf => by rw [h f hf])

/-- Witness for C5: a request missing exactly `muzzleVelocity` is rejected
with the 422 naming it. -/
theorem C5_witness :
    (∃ f ∈ required_calc_fields,
      (fun g => if g = "muzzleVelocity" then (none : Option Nat) else some 1) f = none) ∧
    handle_calculate_ballistics
        (fun g => if g = "muzzleVelocity" then (none : Option Nat) else some 1) "u9" =
      CalcOutcome.validationError
        "muzzleVelocity is required for ballistic calculation" 422 := by
  have hex : ∃ f ∈ required_calc_fields,
      (fun g => if g = "muzzleVelocity" then (none : Option Nat) else some 1) f = none :=
    ⟨"muzzleVelocity", by decide, by decide⟩
  obtain ⟨f, hf, heq⟩ :=
    (C5_calc_required_fields
      (fun g => if g = "muzzleVelocity" then (none : Option Nat) else some 1) "u9").1 hex
  have hf0 : f = "muzzleVelocity" := by
    have : required_calc_fields.find?
        (fun g => ((fun g => if g = "muzzleVelocity" then (none : Option Nat) else some 1) g).isNone) =
        some "muzzleVelocity" := by decide
    rw [this] at hf
    exact ((Option.some.injEq _ _).mp hf).symm
  rw [hf0] at heq
  exact ⟨hex, heq⟩

/-- **C7**: `is_valid` is exactly "not used and expiring strictly later
than now", and — under the `token` column's unique constraint —
`find_valid_token` returns precisely the row with that token value when it
satisfies the predicate, and `none` otherwise. -/
theorem C7_find_valid_token (db : DB) (now : Nat) (t : String)
    (r : PasswordResetToken)
    (hcount : db.tokens.countP (fun x => x.token = t) ≤ 1) :
    (r.is_valid now = (!r.used && decide (now < r.expires_at))) ∧
    (PasswordResetToken.find_valid_token db now t = some r ↔
      r ∈ db.tokens ∧ r.token = t ∧ r.used = false ∧ now < r.expires_at) := by
  refine ⟨rfl, ?_, ?_⟩
  · intro h
    unfold PasswordResetToken.find_valid_token at h
    cases hf : db.tokens.find? (fun x => x.token = t) with
    | none => rw [hf] at h; exact absurd h (by simp)
    | some r0 =>
      rw [hf] at h
      dsimp only at h
      by_cases hv : r0.is_valid now = true
      · rw [if_pos hv] at h
        cases h
        have hmem := List.mem_of_find?_eq_some hf
        have htok := List.find?_some hf
        unfold PasswordResetToken.is_valid at hv
        simp only [Bool.and_eq_true, Bool.not_eq_true', decide_eq_true_eq] at hv
        exact ⟨hmem, by simpa using htok, hv.1, hv.2⟩
      · rw [if_neg hv] at h
        exact absurd h (by simp)
  · rintro ⟨hmem, htok, hused, hexp⟩
    unfold PasswordResetToken.find_valid_token
    rw [find?_token_unique hcount hmem htok]
    have hv : r.is_valid now = true := by
      simp [PasswordResetToken.is_valid, hused, hexp]
    dsimp only
    rw [if_pos hv]

/-- Witness for C7: the unused, unexpired OTP row of the sample store is
returned by `find_valid_token`. -/
theorem C7_witness :
    dbMain.tokens.countP (fun x => x.token = "1234") ≤ 1 ∧
    PasswordResetToken.find_valid_token dbMain 50 "1234" =
      some ⟨"u1", "1234", 100, false⟩ :=
  ⟨by decide,
    (C7_find_valid_token dbMain 50 "1234" ⟨"u1", "1234", 100, false⟩
      (by decide)).2.mpr (by decide)⟩

/-- **C8**: for a validly-formatted email with no matching account,
`forgot_password` answers success with the fixed non-revealing message,
sends no email and writes nothing; failure implies a malformed email, a
disabled account or an email-send failure; and success also obtains
whenever any matching account is active and the send succeeds — so the
success bit does not separate "no account" from a normal account. -/
theorem C8_forgot_password (validE : String → Bool) (sendOk : Bool)
    (otp : String) (db : DB) (now : Nat) (email : String) :
    ((validE email = true → User.find_by_email db email = none →
      AuthService.forgot_password validE sendOk otp db now email =
        ⟨true,
          "If an account with this email exists, you will receive a password reset link",
          [], db⟩)) ∧
    ((AuthService.forgot_password validE sendOk otp db now email).success = false →
      validE email = false ∨
      (∃ u, User.find_by_email db email = some u ∧ u.is_active = false) ∨
      sendOk = false) ∧
    (validE email = true →
      (∀ u, User.find_by_email db email = some u → u.is_active = true) →
      sendOk = true →
      (AuthService.forgot_password validE sendOk otp db now email).success = true) := by
  unfold AuthService.forgot_password
  by_cases h1 : validE email = true
  · cases h3 : User.find_by_email db email with
    | none => simp [h1, h3]
    | some u =>
      by_cases h4 : u.is_active = true
      · by_cases h5 : sendOk = true
        · simp [h1, h3, h4, h5]
        · simp only [Bool.not_eq_true] at h5
          simp [h1, h3, h4, h5]
      · simp only [Bool.not_eq_true] at h4
        simp [h1, h3, h4]
  · simp only [Bool.not_eq_true] at h1
    simp [h1]

/-- Witness for C8: a well-formed email with no account gets the fixed
success answer, no email and an unchanged store. -/
theorem C8_witness :
    AuthService.forgot_password sampleValidE true "5678" dbMain 50 "c@d.com" =
      ⟨true,
        "If an account with this email exists, you will receive a password reset link",
        [], dbMain⟩ :=
  (C8_forgot_password sampleValidE true "5678" dbMain 50 "c@d.com").1
    (by decide) (by decide)

/-- Counterexample to **C9** as stated: for the passwordless active user of
the sample store, supplying the empty password makes `login_user` fail with
"Password is required", not "Incorrect password" — so login does not
*always* fail with "Incorrect password" for such an account. -/
theorem C9_counterexample :
    User.find_by_email dbMain "b@b.com" = some bob ∧
    bob.password_hash = none ∧ bob.is_active = true ∧
    (AuthService.login_user sampleValidE sampleChk sampleGts dbMain
      "b@b.com" "").success = false ∧
    (AuthService.login_user sampleValidE sampleChk sampleGts dbMain
      "b@b.com" "").message = "Password is required" := by
  refine ⟨by decide, rfl, rfl, by decide, by decide⟩

/-- **C9 (amended)**: for a user whose `password_hash` is unset,
`check_password` is `False` for every candidate, so `login_user` never
succeeds for that account; when the email validates, the supplied password
is nonempty and the account is active, its failure message is
"Incorrect password" (an empty password is refused earlier with
"Password is required", and other guards with their own messages). -/
theorem C9_passwordless_login (validE : String → Bool)
    (chk : String → String → Bool) (gts : String → Tokens) (db : DB)
    (email password : String) (u : User)
    (hu : User.find_by_email db email = some u)
    (hh : u.password_hash = none) :
    User.check_password chk u password = false ∧
    (AuthService.login_user validE chk gts db email password).success = false ∧
    (validE email = true → password.data.isEmpty = false → u.is_active = true →
      (AuthService.login_user validE chk gts db email password).message =
        "Incorrect password") := by
  have hcp : User.check_password chk u password = false := by
    unfold User.check_password
    rw [hh]
  refine ⟨hcp, ?_, ?_⟩
  · unfold AuthService.login_user
    by_cases h1 : validE email = true
    case neg => simp [h1]
    by_cases h2 : password.data.isEmpty = true
    · simp [h1, h2]
    · by_cases h4 : u.is_active = true
      · simp [h1, h2, hu, h4, hcp]
      · simp only [Bool.not_eq_true] at h4
        simp [h1, h2, hu, h4]
  · intro h1 h2 h4
    unfold AuthService.login_user
    simp [h1, h2, hu, h4, hcp]

/-- Witness for C9 (amended): the passwordless account with a nonempty
password fails with "Incorrect password". -/
theorem C9_witness :
    (AuthService.login_user sampleValidE sampleChk sampleGts dbMain
      "b@b.com" "whatever").success = false ∧
    (AuthService.login_user sampleValidE sampleChk sampleGts dbMain
      "b@b.com" "whatever").message = "Incorrect password" :=
  ⟨(C9_passwordless_login sampleValidE sampleChk sampleGts dbMain
      "b@b.com" "whatever" bob (by decide) rfl).2.1,
   (C9_passwordless_login sampleValidE sampleChk sampleGts dbMain
      "b@b.com" "whatever" bob (by decide) rfl).2.2 (by decide) (by decide) rfl⟩

/-- **C10**: on every successful registration the stored `full_name` is the
input stripped, truncated to 255 characters, with every `<`, `>`, double
quote and apostrophe removed (so it contains none of them); validation is
not re-run on the sanitised value. -/
theorem C10_sanitized_name (validE : String → Bool) (hash : String → String)
    (gts : String → Tokens) (newId : String) (db : DB)
    (name email password : String)
    (h : (AuthService.register_user validE hash gts newId db
      name email password).success = true) :
    ∃ u, (AuthService.register_user validE hash gts newId db
        name email password).db.users = db.users ++ [u] ∧
      u.full_name = Validators.sanitize_string name 255 ∧
      u.full_name = String.mk (((pyStrip name).data.take 255).filter
        (fun c => !(harmfulChars.contains c))) ∧
      ∀ c ∈ harmfulChars, c ∉ u.full_name.data := by
  by_cases h1 : (Validators.validate_full_name name).1 = true
  case neg => unfold AuthService.register_user at h; simp [h1] at h
  by_cases h2 : validE email = true
  case neg => unfold AuthService.register_user at h; simp [h1, h2] at h
  by_cases h3 : (Validators.validate_password password).1 = true
  case neg => unfold AuthService.register_user at h; simp [h1, h2, h3] at h
  cases h4 : User.find_by_email db email with
  | some u0 => unfold AuthService.register_user at h; simp [h1, h2, h3, h4] at h
  | none =>
    rw [register_user_success_eq validE hash gts newId db name email password
      h1 h2 h3 h4]
    refine ⟨newEmailUser hash newId name email password, rfl, rfl, rfl, ?_⟩
    intro c hc hmem
    simp only [newEmailUser, Validators.sanitize_string] at hmem
    have hfalse := List.of_mem_filter hmem
    simp only [Bool.not_eq_true'] at hfalse
    have hcontains : harmfulChars.contains c = true := List.elem_iff.mpr hc
    rw [hfalse] at hcontains
    exact Bool.false_ne_true hcontains

/-- Witness for C10: the name `"<<"` passes the length-2 validation, the
registration succeeds, and the stored name is the empty string. -/
theorem C10_witness :
    (Validators.validate_full_name "<<").1 = true ∧
    (AuthService.register_user sampleValidE sampleHash sampleGts "u9" dbMain
      "<<" "new@x.com" "Passw0rd!").success = true ∧
    ∃ u, (AuthService.register_user sampleValidE sampleHash sampleGts "u9" dbMain
        "<<" "new@x.com" "Passw0rd!").db.users = dbMain.users ++ [u] ∧
      u.full_name = "" := by
  have hs : (AuthService.register_user sampleValidE sampleHash sampleGts "u9" dbMain
      "<<" "new@x.com" "Passw0rd!").success = true := by decide
  obtain ⟨u, hu1, hu2, -, -⟩ :=
    C10_sanitized_name sampleValidE sampleHash sampleGts "u9" dbMain
      "<<" "new@x.com" "Passw0rd!" hs
  refine ⟨by decide, hs, u, hu1, ?_⟩
  rw [hu2]
  decide

/-- **C3**: `verify_otp` succeeds iff the email is validly formatted, the
OTP is a string of exactly 4 digits, a user with that email exists, and an
unused token row for that user holds the OTP and expires strictly later
than now.  On success it marks that OTP row used, appends a fresh reset
token expiring one hour (60 minutes) from now and returns it; in every
other case it fails, returns no token and leaves the store unchanged. -/
theorem C3_verify_otp (validE : String → Bool) (db : DB) (now : Nat)
    (fresh email otp : String) :
    ((AuthService.verify_otp validE db now fresh email otp).success = true ↔
      validE email = true ∧ (Validators.validate_otp otp).1 = true ∧
      ∃ u, User.find_by_email db email = some u ∧
        ∃ row ∈ db.tokens, row.user_id = u.id ∧ row.token = otp ∧
          row.used = false ∧ now < row.expires_at) ∧
    ((AuthService.verify_otp validE db now fresh email otp).success = true →
      (AuthService.verify_otp validE db now fresh email otp).message =
        "OTP verified successfully" ∧
      (AuthService.verify_otp validE db now fresh email otp).reset_token =
        some fresh ∧
      ∃ u, User.find_by_email db email = some u ∧
        (AuthService.verify_otp validE db now fresh email otp).db.users =
          db.users ∧
        ∃ pre row post, db.tokens = pre ++ row :: post ∧
          tokenQueryPred u.id otp now row = true ∧
          (∀ x ∈ pre, tokenQueryPred u.id otp now x = false) ∧
          (AuthService.verify_otp validE db now fresh email otp).db.tokens =
            (pre ++ { row with used := true } :: post) ++
              [⟨u.id, fresh, now + 60, false⟩]) ∧
    ((AuthService.verify_otp validE db now fresh email otp).success = false →
      (AuthService.verify_otp validE db now fresh email otp).reset_token = none ∧
      (AuthService.verify_otp validE db now fresh email otp).db = db) := by
  refine ⟨?_, ?_, verify_otp_failure_eq validE db now fresh email otp⟩
  · rw [verify_otp_success_iff]
    constructor
    · rintro ⟨hv, ho, u, hu, row, hmem, hpred⟩
      simp only [tokenQueryPred, Bool.and_eq_true, decide_eq_true_eq] at hpred
      exact ⟨hv, ho, u, hu, row, hmem, hpred.1.1.1, hpred.1.1.2,
        by simpa using hpred.1.2, hpred.2⟩
    · rintro ⟨hv, ho, u, hu, row, hmem, h1, h2, h3, h4⟩
      exact ⟨hv, ho, u, hu, row, hmem,
        by simp [tokenQueryPred, h1, h2, h3, h4]⟩
  · intro hs
    obtain ⟨hv, ho, u, hu, row0, hmem0, hpred0⟩ :=
      (verify_otp_success_iff validE db now fresh email otp).mp hs
    have hsome : (db.tokens.find? (tokenQueryPred u.id otp now)).isSome :=
      List.find?_isSome.mpr ⟨row0, hmem0, hpred0⟩
    obtain ⟨r, hfind⟩ := Option.isSome_iff_exists.mp hsome
    have heq := verify_otp_success_eq validE db now fresh email otp u r
      hv ho hu hfind
    obtain ⟨pre, post, hsplit, hpre, hmark⟩ := markFirstUsed_of_find? hfind
    rw [heq]
    exact ⟨rfl, rfl, u, hu, rfl, pre, r, post, hsplit, List.find?_some hfind,
      hpre, by simp [hmark]⟩

/-- Witness for C3: the sample OTP row is accepted and the fresh reset
token is returned. -/
theorem C3_witness :
    (AuthService.verify_otp sampleValidE dbMain 50 "freshY" "a@b.com"
      "1234").success = true ∧
    (AuthService.verify_otp sampleValidE dbMain 50 "freshY" "a@b.com"
      "1234").reset_token = some "freshY" := by
  have h := C3_verify_otp sampleValidE dbMain 50 "freshY" "a@b.com" "1234"
  have hs : (AuthService.verify_otp sampleValidE dbMain 50 "freshY" "a@b.com"
      "1234").success = true :=
    h.1.mpr ⟨by decide, by decide, alice, by decide,
      ⟨"u1", "1234", 100, false⟩, by decide, by decide, by decide, by decide,
      by decide⟩
  exact ⟨hs, ((h.2.1) hs).2.1⟩

/-- Counterexample to **C6** as stated: with the sample store, registering
the 1-character name `"X"` under `alice`'s already-registered email fails
with the name-validation message, not "Email is already registered" — the
duplicate-email answer is only produced when the validations pass first. -/
theorem C6_counterexample :
    (∃ u ∈ dbMain.users, u.email = normalizeEmail "a@b.com") ∧
    (AuthService.register_user sampleValidE sampleHash sampleGts "u9" dbMain
      "X" "a@b.com" "Passw0rd!").success = false ∧
    (AuthService.register_user sampleValidE sampleHash sampleGts "u9" dbMain
      "X" "a@b.com" "Passw0rd!").message ≠ "Email is already registered" := by
  refine ⟨⟨alice, by decide, by decide⟩, by decide, by decide⟩

/-- **C6 (amended)**: when the name, email and password validations all
pass, `register_user` refuses an already-registered (lower-cased, stripped)
email with "Email is already registered" and an unchanged store; with the
validations passing and the email unregistered it appends exactly one new
user with `sign_in_method = 'email'` and a password hash and returns
success with tokens; on any validation failure it fails — with the
validation message, even if the email is already registered — and the
store is unchanged. -/
theorem C6_register_email_uniqueness (validE : String → Bool)
    (hash : String → String) (gts : String → Tokens) (newId : String)
    (db : DB) (name email password : String) :
    ((Validators.validate_full_name name).1 = true →
     validE email = true →
     (Validators.validate_password password).1 = true →
     (∃ u ∈ db.users, u.email = normalizeEmail email) →
      AuthService.register_user validE hash gts newId db name email password =
        ⟨false, "Email is already registered", none, none, db⟩) ∧
    ((Validators.validate_full_name name).1 = true →
     validE email = true →
     (Validators.validate_password password).1 = true →
     (∀ u ∈ db.users, u.email ≠ normalizeEmail email) →
     ∃ newU,
       AuthService.register_user validE hash gts newId db name email password =
         ⟨true, "User registered successfully", some newU, some (gts newU.id),
           ⟨db.users ++ [newU], db.tokens⟩⟩ ∧
       newU.sign_in_method = "email" ∧
       newU.password_hash = some (hash password)) ∧
    (((Validators.validate_full_name name).1 = false ∨ validE email = false ∨
      (Validators.validate_password password).1 = false) →
      (AuthService.register_user validE hash gts newId db
        name email password).success = false ∧
      (AuthService.register_user validE hash gts newId db
        name email password).db = db) := by
  refine ⟨?_, ?_, ?_⟩
  · rintro h1 h2 h3 ⟨u, hu, he⟩
    have hsome : (db.users.find? (fun v => v.email = normalizeEmail email)).isSome :=
      List.find?_isSome.mpr ⟨u, hu, by simp [he]⟩
    obtain ⟨u0, hfind⟩ := Option.isSome_iff_exists.mp hsome
    have h4 : User.find_by_email db email = some u0 := hfind
    unfold AuthService.register_user
    simp [h1, h2, h3, h4]
  · intro h1 h2 h3 hnone
    have h4 : User.find_by_email db email = none := by
      unfold User.find_by_email
      rw [List.find?_eq_none]
      intro u hu
      simp only [decide_eq_true_eq]
      exact hnone u hu
    refine ⟨newEmailUser hash newId name email password,
      register_user_success_eq validE hash gts newId db name email password
        h1 h2 h3 h4, rfl, ?_⟩
    simp [newEmailUser, validate_password_nonempty h3]
  · intro hbad
    by_cases h1 : (Validators.validate_full_name name).1 = true
    case neg =>
      unfold AuthService.register_user
      simp [h1]
    by_cases h2 : validE email = true
    case neg =>
      unfold AuthService.register_user
      simp [h1, h2]
    by_cases h3 : (Validators.validate_password password).1 = true
    case neg =>
      unfold AuthService.register_user
      simp [h1, h2, h3]
    exfalso
    rcases hbad with h | h | h
    · rw [h1] at h; exact absurd h (by simp)
    · rw [h2] at h; exact absurd h (by simp)
    · rw [h3] at h; exact absurd h (by simp)

/-- Witness for C6 (amended): with valid inputs and `alice`'s email already
registered, registration fails with "Email is already registered" and the
store is unchanged. -/
theorem C6_witness :
    AuthService.register_user sampleValidE sampleHash sampleGts "u9" dbMain
      "Al Bob" "a@b.com" "Passw0rd!" =
      ⟨false, "Email is already registered", none, none, dbMain⟩ :=
  (C6_register_email_uniqueness sampleValidE sampleHash sampleGts "u9" dbMain
    "Al Bob" "a@b.com" "Passw0rd!").1 (by decide) (by decide) (by decide)
    ⟨alice, by decide, by decide⟩

/-- Counterexample to **C4** as stated: after `reset_password` succeeds
consuming the (non-numeric) reset token `"resetTokA"`, a subsequent
`verify_otp` presenting that same token does fail — but with the OTP
format message "OTP must contain only numbers", not with
"Invalid or expired OTP" or "Invalid or expired reset token" as the claim
asserts, because `verify_otp` validates the OTP format before querying. -/
theorem C4_counterexample :
    (AuthService.reset_password sampleValidE sampleHash dbMain 50 "a@b.com"
      "resetTokA" "NewPass1!").success = true ∧
    (AuthService.verify_otp sampleValidE
      (AuthService.reset_password sampleValidE sampleHash dbMain 50 "a@b.com"
        "resetTokA" "NewPass1!").db
      60 "freshZ" "a@b.com" "resetTokA").success = false ∧
    (AuthService.verify_otp sampleValidE
      (AuthService.reset_password sampleValidE sampleHash dbMain 50 "a@b.com"
        "resetTokA" "NewPass1!").db
      60 "freshZ" "a@b.com" "resetTokA").message =
      "OTP must contain only numbers" ∧
    (AuthService.verify_otp sampleValidE
      (AuthService.reset_password sampleValidE sampleHash dbMain 50 "a@b.com"
        "resetTokA" "NewPass1!").db
      60 "freshZ" "a@b.com" "resetTokA").message ≠ "Invalid or expired OTP" ∧
    (AuthService.verify_otp sampleValidE
      (AuthService.reset_password sampleValidE sampleHash dbMain 50 "a@b.com"
        "resetTokA" "NewPass1!").db
      60 "freshZ" "a@b.com" "resetTokA").message ≠
      "Invalid or expired reset token" := by
  refine ⟨by decide, by decide, by decide, by decide, by decide⟩

/-- **C4 (amended)**: a password-reset token is never consumed twice.  Under
the `token` column's unique constraint, once `verify_otp` or
`reset_password` has succeeded using token `t` for a user, every subsequent
`verify_otp` or `reset_password` call presenting `t` for that user fails
and changes nothing — both operations select only `used = False` rows and
mark the matched row used on success.  The failing message is
"Invalid or expired OTP" for `verify_otp` whenever `t` passes the 4-digit
OTP format check (otherwise the earlier format error), and
"Invalid or expired reset token" for `reset_password` whenever the new
password passes validation (otherwise the password-validation error). -/
theorem C4_token_single_use (validE : String → Bool) (hash : String → String)
    (db db1 : DB) (now now2 : Nat) (email t fresh fresh2 pw pw2 : String)
    (hcount : db.tokens.countP (fun x => x.token = t) ≤ 1)
    (hfresh : fresh ≠ t)
    (hfirst :
      ((AuthService.verify_otp validE db now fresh email t).success = true ∧
        db1 = (AuthService.verify_otp validE db now fresh email t).db) ∨
      ((AuthService.reset_password validE hash db now email t pw).success = true ∧
        db1 = (AuthService.reset_password validE hash db now email t pw).db)) :
    (AuthService.verify_otp validE db1 now2 fresh2 email t).success = false ∧
    (AuthService.verify_otp validE db1 now2 fresh2 email t).db = db1 ∧
    (AuthService.verify_otp validE db1 now2 fresh2 email t).reset_token = none ∧
    ((Validators.validate_otp t).1 = true →
      (AuthService.verify_otp validE db1 now2 fresh2 email t).message =
        "Invalid or expired OTP") ∧
    (AuthService.reset_password validE hash db1 now2 email t pw2).success = false ∧
    (AuthService.reset_password validE hash db1 now2 email t pw2).db = db1 ∧
    ((Validators.validate_password pw2).1 = true →
      (AuthService.reset_password validE hash db1 now2 email t pw2).message =
        "Invalid or expired reset token") := by
  have key : validE email = true ∧
      (∃ v, User.find_by_email db1 email = some v) ∧
      (∀ x ∈ db1.tokens, x.token = t → x.used = true) := by
    rcases hfirst with ⟨hs, hdb1⟩ | ⟨hs, hdb1⟩
    · obtain ⟨hv, ho, u, hu, row0, hmem0, hpred0⟩ :=
        (verify_otp_success_iff validE db now fresh email t).mp hs
      obtain ⟨r, hfind⟩ := Option.isSome_iff_exists.mp
        (List.find?_isSome.mpr ⟨row0, hmem0, hpred0⟩)
      have heq := verify_otp_success_eq validE db now fresh email t u r
        hv ho hu hfind
      rw [heq] at hdb1
      refine ⟨hv, ⟨u, ?_⟩, ?_⟩
      · rw [hdb1]; exact hu
      · rw [hdb1]
        exact consumed_append_fresh (consumed_markFirstUsed hcount hfind) hfresh
    · obtain ⟨hv, hpw, u, hu, row0, hmem0, hpred0⟩ :=
        (reset_password_success_iff validE hash db now email t pw).mp hs
      obtain ⟨r, hfind⟩ := Option.isSome_iff_exists.mp
        (List.find?_isSome.mpr ⟨row0, hmem0, hpred0⟩)
      have heq := reset_password_success_eq validE hash db now email t pw u r
        hv hpw hu hfind
      rw [heq] at hdb1
      refine ⟨hv, ?_, ?_⟩
      · obtain ⟨v, hv1, -⟩ := find_by_email_set_password db.users db.tokens
          (List.filter
            (fun x => !(x.user_id = u.id && decide (x.expires_at < now)))
            (markFirstUsed db.tokens (tokenQueryPred u.id t now)))
          u.id hash pw email u hu
        rw [hdb1]
        exact ⟨v, hv1⟩
      · rw [hdb1]
        exact consumed_filter (consumed_markFirstUsed hcount hfind)
  obtain ⟨hv, ⟨v, hv1⟩, hcons⟩ := key
  have r1 := verify_otp_reject validE db1 now2 fresh2 email t v hv hv1 hcons
  have r2 := reset_password_reject validE hash db1 now2 email t pw2 v hv hv1 hcons
  exact ⟨r1.1, r1.2.1, r1.2.2.1, r1.2.2.2, r2.1, r2.2.1, r2.2.2⟩

/-- Witness for C4 (amended): after the sample OTP `"1234"` is consumed by
`verify_otp`, replaying it fails with "Invalid or expired OTP" and the
reset flow refuses it too. -/
theorem C4_witness :
    (AuthService.verify_otp sampleValidE
      ((AuthService.verify_otp sampleValidE dbMain 50 "freshY" "a@b.com"
        "1234").db) 60 "freshZ" "a@b.com" "1234").success = false ∧
    (AuthService.verify_otp sampleValidE
      ((AuthService.verify_otp sampleValidE dbMain 50 "freshY" "a@b.com"
        "1234").db) 60 "freshZ" "a@b.com" "1234").message =
      "Invalid or expired OTP" ∧
    (AuthService.reset_password sampleValidE sampleHash
      ((AuthService.verify_otp sampleValidE dbMain 50 "freshY" "a@b.com"
        "1234").db) 60 "a@b.com" "1234" "NewPass2!").success = false := by
  have h := C4_token_single_use sampleValidE sampleHash dbMain
    ((AuthService.verify_otp sampleValidE dbMain 50 "freshY" "a@b.com"
      "1234").db) 50 60 "a@b.com" "1234" "freshY" "freshZ" "NewPass1!"
    "NewPass2!" (by decide) (by decide) (Or.inl ⟨by decide, rfl⟩)
  exact ⟨h.1, h.2.2.2.1 (by decide), h.2.2.2.2.1⟩

end FlaskBackend
